import Mathlib

/-!
Verification of the percentile-band classifier in `fellowship_app.py`.

The program maps a fellowship month (1-9) and a collection amount to a
percentile band (p_0, p_10, p_25, p_50, p_75, p_90) by a linear scan with
early exit over a static threshold table, then maps the band to a risk
category and a display color.  Amounts and thresholds are embedded as
exact rationals; the pandas dataframe is embedded as a list of rows and
the python dicts as association lists.
-/

namespace Fellowship

/-- One row of the percentile reference dataframe: the `Month` key plus
the five threshold columns, exactly as in `percentile_data`. -/
structure PercentileRow where
  Month : ℚ
  p_10 : ℚ
  p_25 : ℚ
  p_50 : ℚ
  p_75 : ℚ
  p_90 : ℚ
deriving DecidableEq

/-- The static table `percentile_data` / `percentile_df` from the source.
The source lists it column by column; here it is one record per month,
values copied verbatim. -/
def percentile_df : List PercentileRow :=
  [ ⟨1, 0, 0, 243.87, 2049.31, 2871.238⟩,
    ⟨2, 2776.037, 4978.2075, 7562.965, 12953.015, 14422.303⟩,
    ⟨3, 11202.374, 13689.055, 18393.82, 21512.3275, 24093.88⟩,
    ⟨4, 13549.61, 18025.34, 23374.07, 27968.61, 32562.358⟩,
    ⟨5, 19085.83, 23503.0175, 27142.26, 32186.3275, 35985.399⟩,
    ⟨6, 24859.675, 27071.215, 32423.515, 35000.2525, 38910.38⟩,
    ⟨7, 25195.28, 29208.02, 33522.465, 38845.98, 42963.32⟩,
    ⟨8, 26549.521, 30688.22, 33477.645, 38924.8375, 43240.285⟩,
    ⟨9, 30254.91, 33567.065, 38551.74, 45185.775, 48425.45⟩ ]

/-- The percentile columns of the dataframe in their fixed order, that is
`[col for col in df.columns if col != 'Month']`: each column name paired
with its accessor on a row. -/
def percentile_cols : List (String × (PercentileRow → ℚ)) :=
  [ ("p_10", PercentileRow.p_10),
    ("p_25", PercentileRow.p_25),
    ("p_50", PercentileRow.p_50),
    ("p_75", PercentileRow.p_75),
    ("p_90", PercentileRow.p_90) ]

/-- The loop body of `find_percentile_column`: walk the columns in order
carrying `last_col`; when a threshold is `<=` the collection, record the
column and continue, otherwise `break` and return what was recorded. -/
def scan_cols (row : PercentileRow) (current_collection : ℚ) :
    List (String × (PercentileRow → ℚ)) → String → String
  | [], last_col => last_col
  | (col, f) :: rest, last_col =>
    if f row ≤ current_collection then scan_cols row current_collection rest col
    else last_col

/-- The classifier `find_percentile_column(df, month, current_collection)`:
select the first row whose `Month` equals `month` (`None` when absent),
then scan the percentile columns starting from the sentinel `p_0`. -/
def find_percentile_column (df : List PercentileRow) (month : ℚ)
    (current_collection : ℚ) : Option String :=
  match df.find? (fun r => r.Month == month) with
  | none => none
  | some row => some (scan_cols row current_collection percentile_cols "p_0")

/-- The `risk_cat` dict from the source: percentile band to risk category. -/
def risk_cat : List (String × String) :=
  [ ("p_0", "Critical"),
    ("p_10", "High Risk"),
    ("p_25", "Watch"),
    ("p_50", "Watch"),
    ("p_75", "On Track"),
    ("p_90", "On Track") ]

/-- The `risk_colors` dict from the source: risk category to glyph. -/
def risk_colors : List (String × String) :=
  [ ("Critical", "🔴"),
    ("High Risk", "🟠"),
    ("Watch", "🟡"),
    ("On Track", "🟢") ]

/-- Dictionary indexing `d[k]`: `some` of the first value bound to the
key, `none` when the key is absent. -/
def dict_lookup (d : List (String × String)) (k : String) : Option String :=
  (d.find? (fun p => p.1 == k)).map Prod.snd

/-- The six percentile bands in ascending order. -/
def band_order : List String := ["p_0", "p_10", "p_25", "p_50", "p_75", "p_90"]

/-- Position of a band in the order p_0 < p_10 < p_25 < p_50 < p_75 < p_90. -/
def bandRank (b : String) : ℕ := band_order.indexOf b

/-- Reference definition, written from the spec's words rather than from
the source: the highest band in the order p_10 < p_25 < p_50 < p_75 < p_90
whose threshold in the given row is `<=` the amount, or `p_0` when no
threshold is. -/
def spec_band (row : PercentileRow) (amount : ℚ) : String :=
  if row.p_90 ≤ amount then "p_90"
  else if row.p_75 ≤ amount then "p_75"
  else if row.p_50 ≤ amount then "p_50"
  else if row.p_25 ≤ amount then "p_25"
  else if row.p_10 ≤ amount then "p_10"
  else "p_0"

/-- The months that have a row in the table, as required by the claims
that quantify over months 1 through 9. -/
def validMonths : List ℚ := [1, 2, 3, 4, 5, 6, 7, 8, 9]

/-- Every row of the static table has non-negative thresholds that are
non-decreasing across the band order (checked value by value). -/
lemma rows_mono (r : PercentileRow) (hr : r ∈ percentile_df) :
    0 ≤ r.p_10 ∧ r.p_10 ≤ r.p_25 ∧ r.p_25 ≤ r.p_50 ∧
      r.p_50 ≤ r.p_75 ∧ r.p_75 ≤ r.p_90 := by
  fin_cases hr <;> norm_num

/-- When the month lookup succeeds, `find_percentile_column` is the column
scan on the selected row started at the sentinel `p_0`. -/
lemma find_eq_scan (df : List PercentileRow) (month a : ℚ) (row : PercentileRow)
    (h : df.find? (fun r => r.Month == month) = some row) :
    find_percentile_column df month a = some (scan_cols row a percentile_cols "p_0") := by
  unfold find_percentile_column
  rw [h]

/-- On a row with non-decreasing thresholds the early-exit scan agrees
with the highest-satisfied-band reference definition. -/
lemma scan_eq_spec (row : PercentileRow) (a : ℚ)
    (h1 : row.p_10 ≤ row.p_25) (h2 : row.p_25 ≤ row.p_50)
    (h3 : row.p_50 ≤ row.p_75) (h4 : row.p_75 ≤ row.p_90) :
    scan_cols row a percentile_cols "p_0" = spec_band row a := by
  simp only [percentile_cols, scan_cols, spec_band]
  split_ifs <;> first | rfl | (exfalso; linarith)

/-- The reference band is monotone in the amount, in band rank. -/
lemma spec_band_rank_mono (row : PercentileRow) (a1 a2 : ℚ) (h : a1 ≤ a2) :
    bandRank (spec_band row a1) ≤ bandRank (spec_band row a2) := by
  simp only [spec_band]
  split_ifs <;> first | decide | (exfalso; linarith)

/-- When even the first threshold exceeds the amount, the scan breaks
immediately and returns the sentinel. -/
lemma scan_bottom (row : PercentileRow) (a : ℚ) (ha : ¬ row.p_10 ≤ a) :
    scan_cols row a percentile_cols "p_0" = "p_0" := by
  simp only [percentile_cols, scan_cols]
  rw [if_neg ha]

/-- When the top threshold of a monotone row is `<=` the amount, every
comparison of the scan succeeds and the scan returns the top band. -/
lemma scan_top (row : PercentileRow) (a : ℚ)
    (h1 : row.p_10 ≤ row.p_25) (h2 : row.p_25 ≤ row.p_50)
    (h3 : row.p_50 ≤ row.p_75) (h4 : row.p_75 ≤ row.p_90)
    (ha : row.p_90 ≤ a) :
    scan_cols row a percentile_cols "p_0" = "p_90" := by
  simp only [percentile_cols, scan_cols]
  split_ifs <;> first | rfl | (exfalso; linarith)

/-- The reference band always lies in the closed set of six bands. -/
lemma spec_band_mem (row : PercentileRow) (a : ℚ) : spec_band row a ∈ band_order := by
  simp only [spec_band]
  split_ifs <;> simp [band_order]

/-- Every band has a risk category and every risk category has a glyph. -/
lemma band_maps (b : String) (hb : b ∈ band_order) :
    ∃ c, dict_lookup risk_cat b = some c ∧
      ∃ g, dict_lookup risk_colors c = some g := by
  fin_cases hb
  · exact ⟨"Critical", rfl, "🔴", rfl⟩
  · exact ⟨"High Risk", rfl, "🟠", rfl⟩
  · exact ⟨"Watch", rfl, "🟡", rfl⟩
  · exact ⟨"Watch", rfl, "🟡", rfl⟩
  · exact ⟨"On Track", rfl, "🟢", rfl⟩
  · exact ⟨"On Track", rfl, "🟢", rfl⟩

/-- Month 1 at amount 0: the scan records p_10 (0 <= 0), records p_25
(0 <= 0), and breaks at p_50 (243.87), returning p_25. -/
lemma month1_zero : find_percentile_column percentile_df 1 0 = some "p_25" := by
  rw [find_eq_scan percentile_df 1 0 ⟨1, 0, 0, 243.87, 2049.31, 2871.238⟩ rfl]
  norm_num [scan_cols, percentile_cols]

/-- C1: for every month in 1..9 (with its table row) and every amount, the
early-exit linear scan of `find_percentile_column` returns exactly the band
given by the reference definition "highest band whose threshold in that
month's row is at most the amount, else p_0". -/
theorem claim_C1 (m : ℚ) (_hm : m ∈ validMonths) (r : PercentileRow)
    (hr : percentile_df.find? (fun x => x.Month == m) = some r) (a : ℚ) :
    find_percentile_column percentile_df m a = some (spec_band r a) := by
  obtain ⟨-, h1, h2, h3, h4⟩ := rows_mono r (List.mem_of_find?_eq_some hr)
  rw [find_eq_scan _ _ _ _ hr, scan_eq_spec r a h1 h2 h3 h4]

/-- C1 witness: the spec's month 3, amount 15000 scenario; the reference
band there evaluates to p_25. -/
theorem claim_C1_witness :
    find_percentile_column percentile_df 3 15000 =
      some (spec_band ⟨3, 11202.374, 13689.055, 18393.82, 21512.3275, 24093.88⟩ 15000) ∧
    spec_band ⟨3, 11202.374, 13689.055, 18393.82, 21512.3275, 24093.88⟩ 15000 = "p_25" :=
  ⟨claim_C1 3 (by norm_num [validMonths]) _ rfl 15000, by norm_num [spec_band]⟩

/-- C2 counterexample: at month 1, amount 0, the classifier returns band
p_25, not p_10 as the claim states, because row(1).p_25 = 0 also satisfies
the non-strict comparison. -/
theorem claim_C2_counterexample :
    find_percentile_column percentile_df 1 0 ≠ some "p_10" ∧
      find_percentile_column percentile_df 1 0 = some "p_25" :=
  ⟨by rw [month1_zero]; decide, month1_zero⟩

/-- C2 amended: for month = 1 and amount = 0, classify returns band p25
(not p0) and category Watch: row(1).p10 = 0 and row(1).p25 = 0 both
satisfy the non-strict comparison and the walk stops at p50 = 243.87. -/
theorem claim_C2 :
    find_percentile_column percentile_df 1 0 = some "p_25" ∧
      dict_lookup risk_cat "p_25" = some "Watch" :=
  ⟨month1_zero, rfl⟩

/-- C3: the classifier yields the failure value `none` exactly when no row
of the table carries the input month; months 0 and 10 fail this way for
every amount, and the failure is distinct from a valid p_0 result. -/
theorem claim_C3 :
    (∀ month a : ℚ,
      find_percentile_column percentile_df month a = none ↔
        ∀ r ∈ percentile_df, r.Month ≠ month)
    ∧ (∀ a : ℚ, find_percentile_column percentile_df 0 a = none
        ∧ find_percentile_column percentile_df 10 a = none)
    ∧ (∀ a : ℚ, find_percentile_column percentile_df 0 a ≠ some "p_0") := by
  refine ⟨?_, fun a => ⟨rfl, rfl⟩, fun a h => Option.noConfusion h⟩
  intro month a
  unfold find_percentile_column
  cases h : percentile_df.find? (fun r => r.Month == month) with
  | none =>
    rw [List.find?_eq_none] at h
    exact ⟨fun _ r hr he => h r hr (by simp [he]), fun _ => rfl⟩
  | some row =>
    constructor
    · intro hc
      exact Option.noConfusion hc
    · intro hall
      have hb := List.find?_some h
      exact absurd (eq_of_beq hb) (hall row (List.mem_of_find?_eq_some h))

/-- C4: for a fixed month in 1..9 (with its table row), the band returned
by the classifier is monotone in the amount, in the band order
p_0 < p_10 < p_25 < p_50 < p_75 < p_90. -/
theorem claim_C4 (m : ℚ) (_hm : m ∈ validMonths) (r : PercentileRow)
    (hr : percentile_df.find? (fun x => x.Month == m) = some r)
    (a1 a2 : ℚ) (h : a1 ≤ a2) :
    ∃ b1 b2, find_percentile_column percentile_df m a1 = some b1 ∧
      find_percentile_column percentile_df m a2 = some b2 ∧
      bandRank b1 ≤ bandRank b2 := by
  obtain ⟨-, h1, h2, h3, h4⟩ := rows_mono r (List.mem_of_find?_eq_some hr)
  exact ⟨spec_band r a1, spec_band r a2,
    by rw [find_eq_scan _ _ _ _ hr, scan_eq_spec r a1 h1 h2 h3 h4],
    by rw [find_eq_scan _ _ _ _ hr, scan_eq_spec r a2 h1 h2 h3 h4],
    spec_band_rank_mono r a1 a2 h⟩

/-- C4 witness: month 3 with amounts 100 and 15000. -/
theorem claim_C4_witness :
    ∃ b1 b2, find_percentile_column percentile_df 3 100 = some b1 ∧
      find_percentile_column percentile_df 3 15000 = some b2 ∧
      bandRank b1 ≤ bandRank b2 :=
  claim_C4 3 (by norm_num [validMonths])
    ⟨3, 11202.374, 13689.055, 18393.82, 21512.3275, 24093.88⟩ rfl
    100 15000 (by norm_num)

/-- C5: for every month in 1..9 (with its table row) and every amount at
least that row's p_90 threshold, including an exact tie, the classifier
returns band p_90 and the category On Track; there is no upper error. -/
theorem claim_C5 (m : ℚ) (_hm : m ∈ validMonths) (r : PercentileRow)
    (hr : percentile_df.find? (fun x => x.Month == m) = some r)
    (a : ℚ) (ha : r.p_90 ≤ a) :
    find_percentile_column percentile_df m a = some "p_90" ∧
      dict_lookup risk_cat "p_90" = some "On Track" := by
  obtain ⟨-, h1, h2, h3, h4⟩ := rows_mono r (List.mem_of_find?_eq_some hr)
  exact ⟨by rw [find_eq_scan _ _ _ _ hr, scan_top r a h1 h2 h3 h4 ha], rfl⟩

/-- C5 witness: the spec's month 9, amount 50000 scenario. -/
theorem claim_C5_witness :
    find_percentile_column percentile_df 9 50000 = some "p_90" ∧
      dict_lookup risk_cat "p_90" = some "On Track" :=
  claim_C5 9 (by norm_num [validMonths])
    ⟨9, 30254.91, 33567.065, 38551.74, 45185.775, 48425.45⟩ rfl
    50000 (by norm_num)

/-- C5 tie witness: month 9 with the amount exactly equal to p_90. -/
theorem claim_C5_witness_tie :
    find_percentile_column percentile_df 9 48425.45 = some "p_90" ∧
      dict_lookup risk_cat "p_90" = some "On Track" :=
  claim_C5 9 (by norm_num [validMonths])
    ⟨9, 30254.91, 33567.065, 38551.74, 45185.775, 48425.45⟩ rfl
    48425.45 (by norm_num)

/-- C6: for every month in 1..9 whose row has a positive p_10 threshold
and every amount strictly below that threshold, the classifier returns
band p_0 and the category Critical. -/
theorem claim_C6 (m : ℚ) (_hm : m ∈ validMonths) (r : PercentileRow)
    (hr : percentile_df.find? (fun x => x.Month == m) = some r)
    (_hp : 0 < r.p_10) (a : ℚ) (ha : a < r.p_10) :
    find_percentile_column percentile_df m a = some "p_0" ∧
      dict_lookup risk_cat "p_0" = some "Critical" := by
  exact ⟨by rw [find_eq_scan _ _ _ _ hr, scan_bottom r a (by intro hc; linarith)], rfl⟩

/-- C6 witness: month 3, amount 100, strictly below p_10 = 11202.374. -/
theorem claim_C6_witness :
    find_percentile_column percentile_df 3 100 = some "p_0" ∧
      dict_lookup risk_cat "p_0" = some "Critical" :=
  claim_C6 3 (by norm_num [validMonths])
    ⟨3, 11202.374, 13689.055, 18393.82, 21512.3275, 24093.88⟩ rfl
    (by norm_num) 100 (by norm_num)

/-- C7: the band-to-category mapping is total over the six bands in order
and fixed: p_0 maps to Critical, p_10 to High Risk, p_25 and p_50 to
Watch, p_75 and p_90 to On Track, each band to exactly that one category
among the four. -/
theorem claim_C7 :
    band_order.map (dict_lookup risk_cat) =
      [some "Critical", some "High Risk", some "Watch", some "Watch",
        some "On Track", some "On Track"] := by
  decide

/-- C8: every row of the static reference table satisfies the
row-monotonicity data invariant p_10 <= p_25 <= p_50 <= p_75 <= p_90 and
all five thresholds are non-negative. -/
theorem claim_C8 (r : PercentileRow) (hr : r ∈ percentile_df) :
    (0 ≤ r.p_10 ∧ 0 ≤ r.p_25 ∧ 0 ≤ r.p_50 ∧ 0 ≤ r.p_75 ∧ 0 ≤ r.p_90) ∧
      (r.p_10 ≤ r.p_25 ∧ r.p_25 ≤ r.p_50 ∧ r.p_50 ≤ r.p_75 ∧ r.p_75 ≤ r.p_90) := by
  obtain ⟨h0, h1, h2, h3, h4⟩ := rows_mono r hr
  exact ⟨⟨h0, h0.trans h1, h0.trans (h1.trans h2), h0.trans (h1.trans (h2.trans h3)),
    h0.trans (h1.trans (h2.trans (h3.trans h4)))⟩, h1, h2, h3, h4⟩

/-- C8 witness: the invariant instantiated at the month 1 row. -/
theorem claim_C8_witness :
    (0 ≤ (⟨1, 0, 0, 243.87, 2049.31, 2871.238⟩ : PercentileRow).p_10 ∧
      0 ≤ (⟨1, 0, 0, 243.87, 2049.31, 2871.238⟩ : PercentileRow).p_25 ∧
      0 ≤ (⟨1, 0, 0, 243.87, 2049.31, 2871.238⟩ : PercentileRow).p_50 ∧
      0 ≤ (⟨1, 0, 0, 243.87, 2049.31, 2871.238⟩ : PercentileRow).p_75 ∧
      0 ≤ (⟨1, 0, 0, 243.87, 2049.31, 2871.238⟩ : PercentileRow).p_90) ∧
    ((⟨1, 0, 0, 243.87, 2049.31, 2871.238⟩ : PercentileRow).p_10 ≤
        (⟨1, 0, 0, 243.87, 2049.31, 2871.238⟩ : PercentileRow).p_25 ∧
      (⟨1, 0, 0, 243.87, 2049.31, 2871.238⟩ : PercentileRow).p_25 ≤
        (⟨1, 0, 0, 243.87, 2049.31, 2871.238⟩ : PercentileRow).p_50 ∧
      (⟨1, 0, 0, 243.87, 2049.31, 2871.238⟩ : PercentileRow).p_50 ≤
        (⟨1, 0, 0, 243.87, 2049.31, 2871.238⟩ : PercentileRow).p_75 ∧
      (⟨1, 0, 0, 243.87, 2049.31, 2871.238⟩ : PercentileRow).p_75 ≤
        (⟨1, 0, 0, 243.87, 2049.31, 2871.238⟩ : PercentileRow).p_90) :=
  claim_C8 ⟨1, 0, 0, 243.87, 2049.31, 2871.238⟩ (List.mem_cons_self _ _)

/-- C9: for every month in 1..9 (with its table row) and every strictly
negative amount, the classifier accepts the input and returns band p_0,
category Critical, because every p_10 threshold is non-negative so the
first comparison fails. -/
theorem claim_C9 (m : ℚ) (_hm : m ∈ validMonths) (r : PercentileRow)
    (hr : percentile_df.find? (fun x => x.Month == m) = some r)
    (a : ℚ) (ha : a < 0) :
    find_percentile_column percentile_df m a = some "p_0" ∧
      dict_lookup risk_cat "p_0" = some "Critical" := by
  obtain ⟨h0, -, -, -, -⟩ := rows_mono r (List.mem_of_find?_eq_some hr)
  exact ⟨by rw [find_eq_scan _ _ _ _ hr, scan_bottom r a (by intro hc; linarith)], rfl⟩

/-- C9 witness: month 1 with amount -5. -/
theorem claim_C9_witness :
    find_percentile_column percentile_df 1 (-5) = some "p_0" ∧
      dict_lookup risk_cat "p_0" = some "Critical" :=
  claim_C9 1 (by norm_num [validMonths])
    ⟨1, 0, 0, 243.87, 2049.31, 2871.238⟩ rfl
    (-5) (by norm_num)

/-- C10: for every month in 1..9 (with its table row) and every amount,
the classifier returns some band in the closed six-band set, and the
subsequent `risk_cat` and `risk_colors` lookups both succeed on it. -/
theorem claim_C10 (m : ℚ) (_hm : m ∈ validMonths) (r : PercentileRow)
    (hr : percentile_df.find? (fun x => x.Month == m) = some r) (a : ℚ) :
    ∃ b, find_percentile_column percentile_df m a = some b ∧ b ∈ band_order ∧
      ∃ c, dict_lookup risk_cat b = some c ∧
        ∃ g, dict_lookup risk_colors c = some g := by
  obtain ⟨-, h1, h2, h3, h4⟩ := rows_mono r (List.mem_of_find?_eq_some hr)
  exact ⟨spec_band r a,
    by rw [find_eq_scan _ _ _ _ hr, scan_eq_spec r a h1 h2 h3 h4],
    spec_band_mem r a, band_maps _ (spec_band_mem r a)⟩

/-- C10 witness: month 5 with amount 42. -/
theorem claim_C10_witness :
    ∃ b, find_percentile_column percentile_df 5 42 = some b ∧ b ∈ band_order ∧
      ∃ c, dict_lookup risk_cat b = some c ∧
        ∃ g, dict_lookup risk_colors c = some g :=
  claim_C10 5 (by norm_num [validMonths])
    ⟨5, 19085.83, 23503.0175, 27142.26, 32186.3275, 35985.399⟩ rfl 42

end Fellowship
